import Mathlib

/-!
Shallow embedding of the multi-tenant WhatsApp gateway (Go sources under
src/src/go and src/unnamed): identity utilities (ExtractPhoneNumber,
ConvertToJID), the policy-store gateway (GetRecruiterConfig), the inbound
filter and normalizer (ReceiveMessage), the outbound dispatcher loop body
(StartMessageSending), and the supervisor connect path (Connect,
getOrCreateDeviceStore, LoginEventHandler).

External effects are modelled explicitly: Kafka publish results are an
oracle per topic, the database lookup outcome is an oracle value, the
shortuuid and the clock are parameters.  An emission is recorded exactly
when the message callback returns nil; when the callback errors the model
returns at the corresponding Go return site.
-/

namespace Gateway

/-- Error and info codes declared in the models package. -/
def ErrorCodeSelfMessage : String := "SELF_MESSAGE"

def ErrorCodeGroupMessage : String := "GROUP_MESSAGE"

def ErrorCodeBlockedSender : String := "BLOCKED_SENDER"

def ErrorCodeDisallowedMsgType : String := "DISALLOWED_MESSAGE_TYPE"

def ErrorCodeEmptyMessage : String := "EMPTY_MESSAGE"

def ErrorRateLimitExceeded : String := "EXCEEDED_MESSAGE_RATE_LIMIT"

def ErrorCodeUserNotEnabled : String := "USER_NOT_ENABLED"

def InfoCodeAdminMessage : String := "SELF_MESSAGE_ADMIN"

def InfoCodeRecruiterManual : String := "RECRUITER_MANUAL_REACHOUT"

/-- Go strings.Contains for a single-character separator, on the character
list of a string. -/
def containsChar : List Char → Char → Bool
  | [], _ => false
  | a :: as, c => a == c || containsChar as c

/-- Go strings.Split for a single-character separator, on the character list
of a string: Split of the empty string is one empty field. -/
def splitOnChar (c : Char) : List Char → List (List Char)
  | [] => [[]]
  | a :: as =>
    if a = c then
      [] :: splitOnChar c as
    else
      match splitOnChar c as with
      | [] => [[a]]
      | h :: t => (a :: h) :: t

/-- ExtractPhoneNumber from the supervisor file: split on the at sign when
present, else on the colon, and return the first part (the Go function falls
back to the empty string for an empty split, which cannot happen). -/
def ExtractPhoneNumber (jid : String) : String :=
  let delimiter : Char := if containsChar jid.data '@' = true then '@' else ':'
  match splitOnChar delimiter jid.data with
  | p :: _ => String.mk p
  | [] => ""

/-- ConvertToJID from the supervisor file: append the transport suffix. -/
def ConvertToJID (number : String) : String := number ++ "@s.whatsapp.net"

/-- The content field of a normalized event is an interface value in Go:
nil, a text string, or downloaded media bytes. -/
inductive WAContent
  | cnone
  | cstr (s : String)
  | cbytes (b : List Nat)
deriving DecidableEq

/-- The normalized event written to the bus (WhatsAppMessage). -/
structure WhatsAppMessage where
  eventType : String
  timeStamp : Nat
  senderID : String
  receiverID : String
  chatID : String
  messageID : String
  msgType : String
  mediaType : String
  isGroup : Bool
  content : WAContent
  mimeType : String
  errorCode : String
deriving DecidableEq

/-- Static per-tenant configuration (RecruiterConfig). -/
structure RecruiterConfig where
  recruiterNumber : String
  hostClientType : String
  hostClientName : String
  allowedMediaTypes : List String
  messageRateLimit : Int
  enable : Bool
deriving DecidableEq

/-- Row of the configs table (RecruiterConfigDB). -/
structure RecruiterConfigDB where
  recruiterID : String
  applicantID : String
  enabled : Bool
  messageCount : Int
deriving DecidableEq

/-- Outcome of the policy-store query as seen by GetRecruiterConfig: a row
scans, no row matches (scan error), or the query itself fails with a
driver or connection error. -/
inductive DBLookup
  | row (cfg : RecruiterConfigDB)
  | noRow
  | queryError
deriving DecidableEq

/-- GetRecruiterConfig: on a scanned row return it; when no row matches,
return the synthesized default enabled record with a nil error; when the
query fails, return the zero-value record together with the error flag. -/
def GetRecruiterConfig (recruiterID senderID : String) (db : DBLookup) :
    RecruiterConfigDB × Bool :=
  match db with
  | DBLookup.row cfg => (cfg, false)
  | DBLookup.noRow =>
    ({ recruiterID := recruiterID, applicantID := senderID,
       enabled := true, messageCount := 0 }, false)
  | DBLookup.queryError =>
    ({ recruiterID := "", applicantID := "", enabled := false,
       messageCount := 0 }, true)

/-- The fields of an inbound transport Message event that ReceiveMessage
reads, together with the outcome of the external media download. -/
structure MsgEvent where
  chat : String
  senderUser : String
  timestamp : Nat
  isGroup : Bool
  infoType : String
  mediaType : String
  extendedText : String
  conversation : String
  downloadOk : Bool
  mediaData : List Nat
  audioMime : String
  imageMime : String
  documentMime : String
deriving DecidableEq

/-- The transport event variants handled by ReceiveMessage. -/
inductive WAEvent
  | message (m : MsgEvent)
  | callAccept (ts : Nat) (fromUser callID : String)
  | callOffer (ts : Nat) (fromUser callID : String)
  | callReject (ts : Nat) (fromUser callID : String)
  | loggedOut (reasonNumber reasonText : String)
  | chatPresence (sender chat media state : String)
  | temporaryBan (banCode expire : String)
deriving DecidableEq

/-- The parts of the per-tenant supervisor state that the filter reads:
the static config and the store identity of the connected session. -/
structure WCMFilterState where
  recruiterConfig : RecruiterConfig
  storeID : String
deriving DecidableEq

/-- One successful callback invocation: topic, payload, partition key. -/
abbrev Emission := String × WhatsAppMessage × String

/-- Observable outcome of one ReceiveMessage invocation: the recorded
emissions in order, the final payload value, the isBlocked flag, and
whether LogoutEventHandler was reached. -/
structure RMResult where
  emissions : List Emission
  payload : WhatsAppMessage
  blocked : Bool
  logoutInvoked : Bool
deriving DecidableEq

/-- The library constant types.ChatPresenceMediaText (the empty string). -/
def ChatPresenceMediaText : String := ""

/-- The shared emission tail of the Message branch: publish to ingest when
not blocked (the callback is installed by the fleet manager, hence
non-nil), then always attempt raw; an errored callback returns early. -/
def emitTail (pubOk : String → Bool) (pre : List Emission)
    (p : WhatsAppMessage) (key : String) (isBlocked : Bool) : RMResult :=
  if isBlocked = false then
    if pubOk "ingest" = false then
      { emissions := pre, payload := p, blocked := isBlocked, logoutInvoked := false }
    else if pubOk "raw" = false then
      { emissions := pre ++ [("ingest", p, key)], payload := p,
        blocked := isBlocked, logoutInvoked := false }
    else
      { emissions := pre ++ [("ingest", p, key), ("raw", p, key)], payload := p,
        blocked := isBlocked, logoutInvoked := false }
  else
    if pubOk "raw" = false then
      { emissions := pre, payload := p, blocked := isBlocked, logoutInvoked := false }
    else
      { emissions := pre ++ [("raw", p, key)], payload := p,
        blocked := isBlocked, logoutInvoked := false }

/-- The content-extraction switch of the Message branch: text prefers the
extended-text body over the conversation body and drops silently when both
are empty; media downloads the payload (an error returns) and maps the
sub-kind to the msg type and mimetype (an unknown sub-kind returns); any
other info type falls through with the content unset. -/
def contentStage (payload0 : WhatsAppMessage) (v : MsgEvent) :
    Sum RMResult WhatsAppMessage :=
  if v.infoType = "text" then
    let payload1 := { payload0 with msgType := "text" }
    let msgToPayload := if v.extendedText = "" then v.conversation else v.extendedText
    if msgToPayload = "" then
      Sum.inl { emissions := [], payload := payload1, blocked := true,
                logoutInvoked := false }
    else
      Sum.inr { payload1 with content := WAContent.cstr msgToPayload }
  else if v.infoType = "media" then
    if v.downloadOk = false then
      Sum.inl { emissions := [], payload := payload0, blocked := false,
                logoutInvoked := false }
    else if v.mediaType = "audio" ∨ v.mediaType = "ptt" then
      Sum.inr { payload0 with
        msgType := "audio", content := WAContent.cbytes v.mediaData,
        mimeType := v.audioMime }
    else if v.mediaType = "image" then
      Sum.inr { payload0 with
        msgType := "image", content := WAContent.cbytes v.mediaData,
        mimeType := v.imageMime }
    else if v.mediaType = "document" then
      Sum.inr { payload0 with
        msgType := "document", content := WAContent.cbytes v.mediaData,
        mimeType := v.documentMime }
    else
      Sum.inl { emissions := [], payload := payload0, blocked := false,
                logoutInvoked := false }
  else
    Sum.inr payload0

/-- The four peer blocking checks in source order (membership, rate limit,
group, kind-allow): each failed check sets blocked and overwrites the
error code, except the kind-allow check which sets blocked only; none of
them short-circuits. -/
def peerChecks (wcm : WCMFilterState) (configFromDb : RecruiterConfigDB)
    (v : MsgEvent) (payload1 : WhatsAppMessage) : WhatsAppMessage × Bool :=
  let step1 : WhatsAppMessage × Bool :=
    if configFromDb.enabled = false then
      ({ payload1 with errorCode := ErrorCodeBlockedSender }, true)
    else (payload1, false)
  let step2 : WhatsAppMessage × Bool :=
    if wcm.recruiterConfig.messageRateLimit ≤ configFromDb.messageCount then
      ({ step1.1 with errorCode := ErrorRateLimitExceeded }, true)
    else step1
  let step3 : WhatsAppMessage × Bool :=
    if v.isGroup = true then
      ({ step2.1 with errorCode := ErrorCodeGroupMessage }, true)
    else step2
  if (v.infoType = "media" ∧
        wcm.recruiterConfig.allowedMediaTypes.contains v.mediaType = true)
      ∨ wcm.recruiterConfig.allowedMediaTypes.contains v.infoType = true then
    step3
  else (step3.1, true)

/-- The Message branch of ReceiveMessage up to the emission tail: builds the
partial payload and the kafka key (before any receiver rewrite), extracts
content by kind, then runs the self-message branch or the peer policy
checks.  Returns either a finished result (an early Go return) or the
pre-emissions, final payload, key and blocked flag handed to the emission
tail. -/
def messageStage (wcm : WCMFilterState) (db : DBLookup)
    (pubOk : String → Bool) (freshID : String) (v : MsgEvent) :
    Sum RMResult (List Emission × WhatsAppMessage × String × Bool) :=
  let chatID := v.chat
  let senderID := v.senderUser
  let storeID := wcm.storeID
  let payload0 : WhatsAppMessage :=
    { eventType := "Message", timeStamp := v.timestamp, senderID := senderID,
      receiverID := storeID, chatID := chatID, messageID := freshID,
      msgType := "", mediaType := v.mediaType, isGroup := v.isGroup,
      content := WAContent.cnone, mimeType := "", errorCode := "" }
  let kafkaKey := payload0.receiverID ++ "_" ++ payload0.senderID
  match contentStage payload0 v with
  | Sum.inl r => Sum.inl r
  | Sum.inr payload1 =>
    if senderID = storeID then
      if chatID = ConvertToJID wcm.recruiterConfig.recruiterNumber then
        if pubOk "admin" = false then
          Sum.inl { emissions := [], payload := payload1, blocked := true,
                    logoutInvoked := false }
        else
          Sum.inr ([("admin", payload1, kafkaKey)],
            { payload1 with errorCode := InfoCodeAdminMessage }, kafkaKey, true)
      else
        Sum.inr ([],
          { payload1 with
            receiverID := ExtractPhoneNumber chatID,
            errorCode := InfoCodeRecruiterManual }, kafkaKey, true)
    else
      let configFromDb :=
        (GetRecruiterConfig wcm.recruiterConfig.recruiterNumber senderID db).1
      let checked := peerChecks wcm configFromDb v payload1
      Sum.inr ([], checked.1, kafkaKey, checked.2)

/-- The three call-event branches of ReceiveMessage, identical up to the
event type string: build the payload and emit to raw only. -/
def callEvent (wcm : WCMFilterState) (pubOk : String → Bool) (freshID : String)
    (eventType : String) (ts : Nat) (fromUser callID : String) : RMResult :=
  let payload : WhatsAppMessage :=
    { eventType := eventType, timeStamp := ts, senderID := fromUser,
      receiverID := wcm.storeID, chatID := callID, messageID := freshID,
      msgType := "", mediaType := "", isGroup := false,
      content := WAContent.cnone, mimeType := "", errorCode := "" }
  let kafkaKey := payload.receiverID ++ "_" ++ payload.senderID
  if pubOk "raw" = false then
    { emissions := [], payload := payload, blocked := false, logoutInvoked := false }
  else
    { emissions := [("raw", payload, kafkaKey)], payload := payload,
      blocked := false, logoutInvoked := false }

/-- ReceiveMessage, the inbound filter and normalizer, per event variant.
freshID stands for the shortuuid drawn for this event and now for the
wall-clock reading used by the variants that call time.Now. -/
def ReceiveMessage (wcm : WCMFilterState) (db : DBLookup)
    (pubOk : String → Bool) (freshID : String) (now : Nat)
    (evt : WAEvent) : RMResult :=
  match evt with
  | WAEvent.message v =>
    match messageStage wcm db pubOk freshID v with
    | Sum.inl r => r
    | Sum.inr (pre, p, key, isBlocked) => emitTail pubOk pre p key isBlocked
  | WAEvent.callAccept ts fromUser callID =>
    callEvent wcm pubOk freshID "CallAccept" ts fromUser callID
  | WAEvent.callOffer ts fromUser callID =>
    callEvent wcm pubOk freshID "CallOffer" ts fromUser callID
  | WAEvent.callReject ts fromUser callID =>
    callEvent wcm pubOk freshID "CallReject" ts fromUser callID
  | WAEvent.loggedOut reasonNumber reasonText =>
    let payload : WhatsAppMessage :=
      { eventType := "LoggedOut", timeStamp := now, senderID := wcm.storeID,
        receiverID := wcm.storeID, chatID := wcm.storeID, messageID := freshID,
        msgType := "", mediaType := "", isGroup := false,
        content := WAContent.cstr reasonText, mimeType := "",
        errorCode := reasonNumber }
    let kafkaKey := payload.receiverID ++ "_" ++ payload.senderID
    if pubOk "failed" = false then
      { emissions := [], payload := payload, blocked := false, logoutInvoked := false }
    else if pubOk "raw" = false then
      { emissions := [("failed", payload, kafkaKey)], payload := payload,
        blocked := false, logoutInvoked := false }
    else
      { emissions := [("failed", payload, kafkaKey), ("raw", payload, kafkaKey)],
        payload := payload, blocked := false, logoutInvoked := true }
  | WAEvent.chatPresence sender chat media state =>
    let msgType :=
      if media = ChatPresenceMediaText then "textPresence" else media ++ "Presence"
    let payload : WhatsAppMessage :=
      { eventType := "ChatPresence", timeStamp := now, senderID := sender,
        receiverID := wcm.storeID, chatID := chat, messageID := freshID,
        msgType := msgType, mediaType := "", isGroup := false,
        content := WAContent.cstr state, mimeType := "", errorCode := "" }
    let kafkaKey := payload.receiverID ++ "_" ++ payload.senderID
    if pubOk "raw" = false then
      { emissions := [], payload := payload, blocked := false, logoutInvoked := false }
    else if pubOk "ingest" = false then
      { emissions := [("raw", payload, kafkaKey)], payload := payload,
        blocked := false, logoutInvoked := false }
    else
      { emissions := [("raw", payload, kafkaKey), ("ingest", payload, kafkaKey)],
        payload := payload, blocked := false, logoutInvoked := false }
  | WAEvent.temporaryBan banCode expire =>
    let payload : WhatsAppMessage :=
      { eventType := "TemporaryBan", timeStamp := now, senderID := wcm.storeID,
        receiverID := wcm.storeID, chatID := wcm.storeID, messageID := freshID,
        msgType := "", mediaType := "", isGroup := false,
        content := WAContent.cstr expire, mimeType := "", errorCode := banCode }
    let kafkaKey := payload.receiverID ++ "_" ++ payload.senderID
    if pubOk "raw" = false then
      { emissions := [], payload := payload, blocked := false, logoutInvoked := false }
    else if pubOk "failed" = false then
      { emissions := [("raw", payload, kafkaKey)], payload := payload,
        blocked := false, logoutInvoked := false }
    else
      { emissions := [("raw", payload, kafkaKey), ("failed", payload, kafkaKey)],
        payload := payload, blocked := false, logoutInvoked := false }

/-- The emissions of a list that went to the ingest topic. -/
def ingestOnly (es : List Emission) : List Emission :=
  es.filter fun e => e.1 == "ingest"

/-- Whether the content-extraction step of the Message branch reaches the
policy checks rather than returning early. -/
def contentExtractionOk (v : MsgEvent) : Bool :=
  if v.infoType = "text" then
    decide (¬ (v.extendedText = "" ∧ v.conversation = ""))
  else if v.infoType = "media" then
    v.downloadOk && decide (v.mediaType = "audio" ∨ v.mediaType = "ptt" ∨
      v.mediaType = "image" ∨ v.mediaType = "document")
  else true

/-- Content of an outbound bus record, as seen through the JSON decoders
the dispatcher applies per kind: decoding as a string succeeds exactly on
cstr, as an audio payload exactly on cAudio, and so on. -/
inductive OutContent
  | cstr (s : String)
  | cAudio (a : String)
  | cImage (im : String)
  | cDocument (d : String)
  | cOther
deriving DecidableEq

/-- An outbound bus record: its JSON fields by their wire names, and
whether the record value unmarshals at all. -/
structure OutRecord where
  headerOk : Bool
  jsonEventType : String
  jsonTimestamp : Nat
  jsonSenderId : String
  jsonReceiverId : String
  jsonChatId : String
  jsonMid : String
  jsonMsgType : String
  jsonMediaType : String
  jsonIsGroup : Bool
  jsonContent : OutContent
  jsonMimeType : String
  jsonErrorCode : String
deriving DecidableEq

/-- The anonymous payload struct of StartMessageSending.  Its struct tags
swap the identity fields: the SenderID field carries the JSON receiver_id
and the ReceiverID field carries the JSON sender_id. -/
structure OutHeader where
  eventType : String
  timestamp : Nat
  senderID : String
  receiverID : String
  chatID : String
  messageID : String
  msgType : String
  mediaType : String
  isGroup : Bool
  content : OutContent
  mimeType : String
  errorCode : String
deriving DecidableEq

/-- json.Unmarshal of the record value into the dispatcher struct, with the
field mapping taken from the struct tags in the source. -/
def decodeOutHeader (rec : OutRecord) : Option OutHeader :=
  if rec.headerOk = false then none
  else
    some { eventType := rec.jsonEventType, timestamp := rec.jsonTimestamp,
           senderID := rec.jsonReceiverId, receiverID := rec.jsonSenderId,
           chatID := rec.jsonChatId, messageID := rec.jsonMid,
           msgType := rec.jsonMsgType, mediaType := rec.jsonMediaType,
           isGroup := rec.jsonIsGroup, content := rec.jsonContent,
           mimeType := rec.jsonMimeType, errorCode := rec.jsonErrorCode }

/-- Observable dispatcher actions: the audit copy to raw and the
kind-specific sends on the looked-up client manager; a failed send is
logged. -/
inductive DAction
  | rawCopy (rec : OutRecord)
  | sendText (tenant chatID text : String)
  | sendAudio (tenant chatID payload : String)
  | sendImage (tenant chatID payload : String)
  | sendDocument (tenant chatID payload : String)
  | sendTyping (tenant chatID : String)
  | logSendError (tenant : String)
deriving DecidableEq

/-- Loop control after one record: proceed to the next read or leave the
goroutine. -/
inductive LoopCtl
  | next
  | stop
deriving DecidableEq

/-- External outcomes for one record: whether the raw audit write succeeds
and whether the transport send succeeds. -/
structure RecEnv where
  rawWriteOk : Bool
  sendOk : Bool
deriving DecidableEq

/-- The body of the StartMessageSending loop for one consumed record: copy
the value to raw under a fresh key (a failed write returns), unmarshal the
header (a failed unmarshal returns), look up the client manager by the
ReceiverID field (absence returns), then dispatch on msg_type; content
decode failures are swallowed and send errors are logged, both continue. -/
def dispatchRecord (registry : List String) (env : RecEnv) (rec : OutRecord) :
    List DAction × LoopCtl :=
  if env.rawWriteOk = false then ([], LoopCtl.stop)
  else
    match decodeOutHeader rec with
    | none => ([DAction.rawCopy rec], LoopCtl.stop)
    | some payload =>
      if registry.contains payload.receiverID = false then
        ([DAction.rawCopy rec], LoopCtl.stop)
      else
        let sendLog : List DAction :=
          if env.sendOk = true then [] else [DAction.logSendError payload.receiverID]
        match payload.msgType, payload.content with
        | "audio", OutContent.cAudio a =>
          ([DAction.rawCopy rec, DAction.sendAudio payload.receiverID payload.chatID a]
            ++ sendLog, LoopCtl.next)
        | "audio", _ => ([DAction.rawCopy rec], LoopCtl.next)
        | "image", OutContent.cImage im =>
          ([DAction.rawCopy rec, DAction.sendImage payload.receiverID payload.chatID im]
            ++ sendLog, LoopCtl.next)
        | "image", _ => ([DAction.rawCopy rec], LoopCtl.next)
        | "document", OutContent.cDocument d =>
          ([DAction.rawCopy rec, DAction.sendDocument payload.receiverID payload.chatID d]
            ++ sendLog, LoopCtl.next)
        | "document", _ => ([DAction.rawCopy rec], LoopCtl.next)
        | "text", OutContent.cstr s =>
          ([DAction.rawCopy rec, DAction.sendText payload.receiverID payload.chatID s]
            ++ sendLog, LoopCtl.next)
        | "text", _ => ([DAction.rawCopy rec], LoopCtl.next)
        | "typing", _ =>
          ([DAction.rawCopy rec, DAction.sendTyping payload.receiverID payload.chatID]
            ++ sendLog, LoopCtl.next)
        | _, _ => ([DAction.rawCopy rec], LoopCtl.next)

/-- The dispatcher loop over a finite stream of consumed records: stop ends
the goroutine, next moves to the following read. -/
def runDispatcher (registry : List String) :
    List (RecEnv × OutRecord) → List DAction
  | [] => []
  | (env, rec) :: rest =>
    match dispatchRecord registry env rec with
    | (acts, LoopCtl.next) => acts ++ runDispatcher registry rest
    | (acts, LoopCtl.stop) => acts

/-- Recognizer for send_text actions. -/
def isSendText : DAction → Bool
  | DAction.sendText _ _ _ => true
  | _ => false

/-- Recognizer for any transport send action. -/
def isSendAction : DAction → Bool
  | DAction.sendText _ _ _ => true
  | DAction.sendAudio _ _ _ => true
  | DAction.sendImage _ _ _ => true
  | DAction.sendDocument _ _ _ => true
  | DAction.sendTyping _ _ => true
  | _ => false

/-- The send_text calls made on a given tenant supervisor. -/
def sendTextCallsTo (tenant : String) (acts : List DAction) : List DAction :=
  acts.filter fun a =>
    match a with
    | DAction.sendText t _ _ => t == tenant
    | _ => false

/-- A persisted transport device as the supervisor sees it: whether its ID
pointer is nil and the user part of the ID. -/
structure Device where
  idIsNil : Bool
  idUser : String
deriving DecidableEq

/-- Eventual outcome of the asynchronous pairing started by asyncLogin. -/
inductive PairingOutcome
  | pairSuccess
  | pairTimeout
  | pairFailed
deriving DecidableEq

/-- External outcomes of a Connect call: whether Container.GetDevice
succeeds for a matched device, whether whatsmeow.NewClient yields a
client, and what the background pairing later does. -/
structure ConnectEnv where
  getDeviceOk : Bool
  clientOk : Bool
  pairing : PairingOutcome
deriving DecidableEq

/-- The supervisor state Connect mutates. -/
structure SupervisorState where
  isConnected : Bool
  hasDeviceStore : Bool
  hasClient : Bool
deriving DecidableEq

/-- The device-matching loop of getOrCreateDeviceStore: the first device
whose ID is non-nil and whose extracted number equals the recruiter
number. -/
def findMatchingDevice (recruiterNumber : String) : List Device → Option Device
  | [] => none
  | d :: rest =>
    if d.idIsNil = false ∧ ExtractPhoneNumber d.idUser = recruiterNumber then
      some d
    else findMatchingDevice recruiterNumber rest

/-- getOrCreateDeviceStore: both the found-device path and the new-device
path set IsConnected before returning; on the found path the container
lookup may still fail.  The Bool is success. -/
def getOrCreateDeviceStore (st : SupervisorState) (env : ConnectEnv)
    (recruiterNumber : String) (devices : List Device) :
    SupervisorState × Bool :=
  match findMatchingDevice recruiterNumber devices with
  | some _ =>
    ({ st with isConnected := true }, env.getDeviceOk)
  | none =>
    ({ st with isConnected := true }, true)

/-- LoginEventHandler: record the device store, create the client (failure
returns an error), register the event handler, start asyncLogin in the
background (it never touches IsConnected, whatever env.pairing turns out
to be) and set IsConnected.  The Bool is success. -/
def LoginEventHandler (st : SupervisorState) (env : ConnectEnv) :
    SupervisorState × Bool :=
  let st1 := { st with hasDeviceStore := true }
  if env.clientOk = false then (st1, false)
  else ({ st1 with hasClient := true, isConnected := true }, true)

/-- Connect: a no-op when already connected, else get or create the device
store and run LoginEventHandler.  The Bool is success (a nil error). -/
def Connect (st : SupervisorState) (env : ConnectEnv)
    (recruiterNumber : String) (devices : List Device) :
    SupervisorState × Bool :=
  if st.isConnected = true then (st, true)
  else
    let r1 := getOrCreateDeviceStore st env recruiterNumber devices
    if r1.2 = false then (r1.1, false)
    else LoginEventHandler r1.1 env

theorem containsChar_append_cons (x rest : List Char) (c : Char) :
    containsChar (x ++ c :: rest) c = true := by
  induction x with
  | nil => simp [containsChar]
  | cons a as ih => simp [containsChar, ih]

theorem containsChar_cons_false (a : Char) (as : List Char) (c : Char)
    (h : containsChar (a :: as) c = false) :
    a ≠ c ∧ containsChar as c = false := by
  simpa [containsChar] using h

theorem splitOnChar_append_cons (c : Char) (x : List Char)
    (hx : containsChar x c = false) (rest : List Char) :
    splitOnChar c (x ++ c :: rest) = x :: splitOnChar c rest := by
  induction x with
  | nil => simp [splitOnChar]
  | cons a as ih =>
    obtain ⟨h1, h2⟩ := containsChar_cons_false a as c hx
    simp [splitOnChar, h1, ih h2]

/-- C9: the identity transforms are total functions and round-trip: for a
non-empty bare id containing neither the at sign nor a colon,
ExtractPhoneNumber (ConvertToJID x) = x, and the empty input yields the
empty output. -/
theorem extract_phone_roundtrip (x : String) (hne : x ≠ "")
    (hat : containsChar x.data '@' = false)
    (hcolon : containsChar x.data ':' = false) :
    ExtractPhoneNumber (ConvertToJID x) = x ∧ ExtractPhoneNumber "" = "" := by
  refine ⟨?_, by decide⟩
  have hdata : (ConvertToJID x).data = x.data ++ '@' :: "s.whatsapp.net".data := by
    show (x ++ "@s.whatsapp.net").data = _
    rw [String.data_append]
  unfold ExtractPhoneNumber
  simp [hdata, containsChar_append_cons, splitOnChar_append_cons '@' x.data hat]

/-- C9 witness: the round trip evaluated at the sample recruiter number. -/
theorem extract_phone_roundtrip_witness :
    ("918496952149" : String) ≠ "" ∧
      ExtractPhoneNumber (ConvertToJID "918496952149") = "918496952149" :=
  ⟨by decide,
    (extract_phone_roundtrip "918496952149" (by decide) (by decide) (by decide)).1⟩

theorem emitTail_payload (pubOk : String → Bool) (pre : List Emission)
    (p : WhatsAppMessage) (key : String) (b : Bool) :
    (emitTail pubOk pre p key b).payload = p ∧
      (emitTail pubOk pre p key b).blocked = b := by
  cases b <;> cases hi : pubOk "ingest" <;> cases hr : pubOk "raw" <;>
    simp [emitTail, hi, hr]

theorem emitTail_mem (pubOk : String → Bool) (pre : List Emission)
    (p : WhatsAppMessage) (key : String) (b : Bool) (e : Emission)
    (he : e ∈ (emitTail pubOk pre p key b).emissions) :
    e ∈ pre ∨ (e.2.1 = p ∧ e.2.2 = key) := by
  cases b <;> cases hi : pubOk "ingest" <;> cases hr : pubOk "raw" <;>
      simp [emitTail, hi, hr] at he <;>
    aesop

theorem emitTail_ingest_raw (pubOk : String → Bool) (pre : List Emission)
    (p : WhatsAppMessage) (key : String) (b : Bool)
    (hpre : ingestOnly pre = []) (hraw : pubOk "raw" = true)
    (q : WhatsAppMessage) (k : String)
    (hq : ("ingest", q, k) ∈ (emitTail pubOk pre p key b).emissions) :
    ("raw", q, k) ∈ (emitTail pubOk pre p key b).emissions := by
  have hnot : ("ingest", q, k) ∉ pre := by
    intro hmem
    have hin : ("ingest", q, k) ∈ ingestOnly pre := by
      simp [ingestOnly, List.mem_filter, hmem]
    rw [hpre] at hin
    simp at hin
  cases b <;> cases hi : pubOk "ingest" <;>
      simp [emitTail, hi, hraw] at hq ⊢ <;>
    aesop

theorem emitTail_blocked_no_ingest (pubOk : String → Bool) (pre : List Emission)
    (p : WhatsAppMessage) (key : String) (hpre : ingestOnly pre = []) :
    ingestOnly (emitTail pubOk pre p key true).emissions = [] := by
  cases hr : pubOk "raw" <;>
      simp_all [emitTail, hr, ingestOnly, List.filter_append] <;>
    exact hpre

theorem contentStage_inl_emissions (payload0 : WhatsAppMessage) (v : MsgEvent)
    (r : RMResult) (h : contentStage payload0 v = Sum.inl r) :
    r.emissions = [] := by
  unfold contentStage at h
  all_goals try dsimp only [] at h
  split at h
  all_goals try dsimp only [] at h
  all_goals try split at h
  all_goals try dsimp only [] at h
  all_goals try split at h
  all_goals try dsimp only [] at h
  all_goals try split at h
  all_goals try dsimp only [] at h
  all_goals try split at h
  all_goals try dsimp only [] at h
  all_goals try split at h
  all_goals first
    | (injection h with h; subst h; rfl)
    | simp at h
    | contradiction

theorem contentStage_inr_fields (payload0 : WhatsAppMessage) (v : MsgEvent)
    (p1 : WhatsAppMessage) (h : contentStage payload0 v = Sum.inr p1) :
    p1.senderID = payload0.senderID ∧ p1.receiverID = payload0.receiverID ∧
      p1.errorCode = payload0.errorCode ∧ p1.isGroup = payload0.isGroup := by
  unfold contentStage at h
  all_goals try dsimp only [] at h
  split at h
  all_goals try dsimp only [] at h
  all_goals try split at h
  all_goals try dsimp only [] at h
  all_goals try split at h
  all_goals try dsimp only [] at h
  all_goals try split at h
  all_goals try dsimp only [] at h
  all_goals try split at h
  all_goals try dsimp only [] at h
  all_goals try split at h
  all_goals first
    | (injection h with h; subst h; simp)
    | simp at h
    | contradiction

theorem contentStage_extract_inr (payload0 : WhatsAppMessage) (v : MsgEvent)
    (hex : contentExtractionOk v = true) :
    ∃ p1, contentStage payload0 v = Sum.inr p1 := by
  unfold contentStage contentExtractionOk at *
  by_cases ht : v.infoType = "text"
  · simp only [ht] at hex ⊢
    simp at hex ⊢
    by_cases he : v.extendedText = ""
    · simp [he] at hex ⊢
      simp [hex]
    · simp [he]
  · by_cases hm : v.infoType = "media"
    · simp only [ht, hm] at hex ⊢
      simp at hex ⊢
      obtain ⟨hdl, hmt⟩ := hex
      simp [hdl]
      rcases hmt with h1 | h1 | h1 | h1 <;> simp [h1]
    · simp [ht, hm]

theorem peerChecks_fields (wcm : WCMFilterState) (cfg : RecruiterConfigDB)
    (v : MsgEvent) (p1 : WhatsAppMessage) :
    (peerChecks wcm cfg v p1).1.senderID = p1.senderID ∧
      (peerChecks wcm cfg v p1).1.receiverID = p1.receiverID := by
  unfold peerChecks
  dsimp only []
  split
  all_goals try split
  all_goals try split
  all_goals try split
  all_goals try split
  all_goals simp

theorem peerChecks_code_blocked_sender (wcm : WCMFilterState)
    (cfg : RecruiterConfigDB) (v : MsgEvent) (p1 : WhatsAppMessage)
    (hEn : cfg.enabled = false)
    (hRate : cfg.messageCount < wcm.recruiterConfig.messageRateLimit)
    (hGroup : v.isGroup = false) :
    (peerChecks wcm cfg v p1).1.errorCode = ErrorCodeBlockedSender ∧
      (peerChecks wcm cfg v p1).2 = true := by
  unfold peerChecks
  dsimp only []
  simp only [hEn, hGroup, if_neg (not_le.mpr hRate)]
  simp

theorem peerChecks_code_group (wcm : WCMFilterState)
    (cfg : RecruiterConfigDB) (v : MsgEvent) (p1 : WhatsAppMessage)
    (hEn : cfg.enabled = false)
    (hRate : wcm.recruiterConfig.messageRateLimit ≤ cfg.messageCount)
    (hGroup : v.isGroup = true) :
    (peerChecks wcm cfg v p1).1.errorCode = ErrorCodeGroupMessage ∧
      (peerChecks wcm cfg v p1).2 = true := by
  unfold peerChecks
  dsimp only []
  simp only [hEn, hGroup, if_pos hRate]
  simp

theorem messageStage_inl_emissions (wcm : WCMFilterState) (db : DBLookup)
    (pubOk : String → Bool) (freshID : String) (m : MsgEvent) (r : RMResult)
    (h : messageStage wcm db pubOk freshID m = Sum.inl r) :
    r.emissions = [] := by
  unfold messageStage at h
  dsimp only [] at h
  split at h
  all_goals try split at h
  all_goals try split at h
  all_goals try split at h
  all_goals first
    | (injection h with h; subst h;
        first
        | rfl
        | exact contentStage_inl_emissions _ _ _ (by assumption))
    | simp at h

theorem messageStage_inr_spec (wcm : WCMFilterState) (db : DBLookup)
    (pubOk : String → Bool) (freshID : String) (m : MsgEvent)
    (pre : List Emission) (p : WhatsAppMessage) (key : String) (b : Bool)
    (h : messageStage wcm db pubOk freshID m = Sum.inr (pre, p, key, b)) :
    key = wcm.storeID ++ "_" ++ m.senderUser ∧
    p.senderID = m.senderUser ∧
    ingestOnly pre = [] ∧
    (∀ e ∈ pre, e.2.1.senderID = m.senderUser ∧ e.2.2 = key) ∧
    (m.senderUser = wcm.storeID → b = true) := by
  unfold messageStage at h
  dsimp only [] at h
  split at h
  · simp at h
  · rename_i payload1 heq
    obtain ⟨hs, hr, he, hg⟩ := contentStage_inr_fields _ _ _ heq
    dsimp only [] at hs hr he hg
    split at h
    · split at h
      · split at h
        · simp at h
        · injection h with h
          simp only [Prod.mk.injEq] at h
          obtain ⟨h1, h2, h3, h4⟩ := h
          subst h1; subst h2; subst h3; subst h4
          refine ⟨by simp, by simp [hs], by simp [ingestOnly], ?_, fun _ => rfl⟩
          intro e hee
          simp at hee
          subst hee
          simp [hs]
      · injection h with h
        simp only [Prod.mk.injEq] at h
        obtain ⟨h1, h2, h3, h4⟩ := h
        subst h1; subst h2; subst h3; subst h4
        refine ⟨by simp, by simp [hs], by simp [ingestOnly], ?_, fun _ => rfl⟩
        intro e hee
        simp at hee
    · rename_i hne
      injection h with h
      simp only [Prod.mk.injEq] at h
      obtain ⟨h1, h2, h3, h4⟩ := h
      subst h1; subst h2; subst h3; subst h4
      refine ⟨by simp, ?_, by simp [ingestOnly], ?_, ?_⟩
      · have hpf := peerChecks_fields wcm
          (GetRecruiterConfig wcm.recruiterConfig.recruiterNumber m.senderUser db).1 m payload1
        rw [hpf.1, hs]
      · intro e hee
        simp at hee
      · intro hx
        exact absurd hx hne

theorem messageStage_peer_exists (wcm : WCMFilterState) (db : DBLookup)
    (pubOk : String → Bool) (freshID : String) (m : MsgEvent)
    (hPeer : m.senderUser ≠ wcm.storeID)
    (hExtract : contentExtractionOk m = true) :
    ∃ p1 : WhatsAppMessage, p1.errorCode = "" ∧ p1.isGroup = m.isGroup ∧
      p1.senderID = m.senderUser ∧ p1.receiverID = wcm.storeID ∧
      messageStage wcm db pubOk freshID m =
        Sum.inr ([],
          (peerChecks wcm
            (GetRecruiterConfig wcm.recruiterConfig.recruiterNumber m.senderUser db).1
            m p1).1,
          wcm.storeID ++ "_" ++ m.senderUser,
          (peerChecks wcm
            (GetRecruiterConfig wcm.recruiterConfig.recruiterNumber m.senderUser db).1
            m p1).2) := by
  obtain ⟨p1, hcs⟩ := contentStage_extract_inr
    { eventType := "Message", timeStamp := m.timestamp, senderID := m.senderUser,
      receiverID := wcm.storeID, chatID := m.chat, messageID := freshID,
      msgType := "", mediaType := m.mediaType, isGroup := m.isGroup,
      content := WAContent.cnone, mimeType := "", errorCode := "" } m hExtract
  obtain ⟨hs, hr, he, hg⟩ := contentStage_inr_fields _ _ _ hcs
  dsimp only [] at hs hr he hg
  refine ⟨p1, he, hg, hs, hr, ?_⟩
  unfold messageStage
  dsimp only []
  rw [hcs]
  dsimp only []
  rw [if_neg hPeer]

theorem messageStage_self_admin_exists (wcm : WCMFilterState) (db : DBLookup)
    (pubOk : String → Bool) (freshID : String) (m : MsgEvent)
    (hSelf : m.senderUser = wcm.storeID)
    (hChat : m.chat = ConvertToJID wcm.recruiterConfig.recruiterNumber)
    (hExtract : contentExtractionOk m = true) (hAdmin : pubOk "admin" = true) :
    ∃ p1 : WhatsAppMessage, p1.errorCode = "" ∧
      messageStage wcm db pubOk freshID m =
        Sum.inr ([("admin", p1, wcm.storeID ++ "_" ++ m.senderUser)],
          { p1 with errorCode := InfoCodeAdminMessage },
          wcm.storeID ++ "_" ++ m.senderUser, true) := by
  obtain ⟨p1, hcs⟩ := contentStage_extract_inr
    { eventType := "Message", timeStamp := m.timestamp, senderID := m.senderUser,
      receiverID := wcm.storeID, chatID := m.chat, messageID := freshID,
      msgType := "", mediaType := m.mediaType, isGroup := m.isGroup,
      content := WAContent.cnone, mimeType := "", errorCode := "" } m hExtract
  obtain ⟨hs, hr, he, hg⟩ := contentStage_inr_fields _ _ _ hcs
  dsimp only [] at hs hr he hg
  refine ⟨p1, he, ?_⟩
  unfold messageStage
  dsimp only []
  rw [hcs]
  dsimp only []
  rw [if_pos hSelf, if_pos hChat]
  simp [hAdmin]

/-- C1 counterexample: for an outbound text record with JSON sender_id 111
and JSON receiver_id 222, both tenants registered, the dispatcher makes no
send_text call on the supervisor for the record receiver_id 222; the one
send_text call goes to the supervisor for the record sender_id 111. -/
theorem dispatch_lookup_ignores_receiver_field :
    sendTextCallsTo "222"
        (dispatchRecord ["111", "222"] ⟨true, true⟩
          ⟨true, "Message", 0, "111", "222", "chat1", "m1", "text", "", false,
            OutContent.cstr "hello", "", ""⟩).1 = [] ∧
    sendTextCallsTo "111"
        (dispatchRecord ["111", "222"] ⟨true, true⟩
          ⟨true, "Message", 0, "111", "222", "chat1", "m1", "text", "", false,
            OutContent.cstr "hello", "", ""⟩).1 =
      [DAction.sendText "111" "chat1" "hello"] ∧
    ("111" : String) ≠ "222" := by
  decide

/-- C1 (amended): for every outbound record consumed by the dispatcher whose
raw copy succeeds, whose header decodes, whose kind is text with
string-decodable content, and whose JSON sender_id (the struct field
ReceiverID under the swapped tags) has a registered supervisor, the
dispatcher makes exactly one send_text call: on the supervisor for the
record JSON sender_id, with the record chat_id and the decoded string. -/
theorem dispatcher_text_single_send (registry : List String) (env : RecEnv)
    (rec : OutRecord) (s : String)
    (hHeader : rec.headerOk = true) (hType : rec.jsonMsgType = "text")
    (hContent : rec.jsonContent = OutContent.cstr s)
    (hRaw : env.rawWriteOk = true)
    (hReg : registry.contains rec.jsonSenderId = true) :
    (dispatchRecord registry env rec).1.filter isSendText =
      [DAction.sendText rec.jsonSenderId rec.jsonChatId s] := by
  cases env with
  | mk rawOk sendOk =>
    simp only [RecEnv.rawWriteOk] at hRaw
    subst hRaw
    unfold dispatchRecord decodeOutHeader
    simp only [hHeader, hType, hContent]
    cases sendOk <;> simp_all [isSendText]

/-- C1 witness: the amended theorem applied to the concrete record of the
counterexample. -/
theorem dispatcher_text_single_send_witness :
    (dispatchRecord ["111", "222"] ⟨true, true⟩
        ⟨true, "Message", 0, "111", "222", "chat1", "m1", "text", "", false,
          OutContent.cstr "hello", "", ""⟩).1.filter isSendText =
      [DAction.sendText "111" "chat1" "hello"] :=
  dispatcher_text_single_send ["111", "222"] ⟨true, true⟩ _ "hello"
    (by decide) (by decide) (by decide) (by decide) (by decide)

/-- C8 counterexample: a record whose value fails to unmarshal terminates
the dispatcher loop: the following valid text record is never read, so no
raw copy and no send happen for it. -/
theorem header_decode_error_stops_loop :
    runDispatcher ["111"]
      [(⟨true, true⟩,
        ⟨false, "", 0, "", "", "", "", "", "", false, OutContent.cOther, "", ""⟩),
       (⟨true, true⟩,
        ⟨true, "Message", 0, "111", "222", "chat1", "m1", "text", "", false,
          OutContent.cstr "hello", "", ""⟩)] =
      [DAction.rawCopy
        ⟨false, "", 0, "", "", "", "", "", "", false, OutContent.cOther, "", ""⟩] := by
  decide

/-- C8 (amended): once the raw copy succeeds, the header decodes and the
supervisor for the JSON sender_id exists, the loop body always proceeds to
the next record — transport send errors and content decode failures never
terminate the loop, and a text record with non-string content causes no
send; a header decode failure, however, terminates the loop. -/
theorem dispatch_continues_after_record_errors (registry : List String)
    (env : RecEnv) (rec : OutRecord) (hRaw : env.rawWriteOk = true) :
    (rec.headerOk = true → registry.contains rec.jsonSenderId = true →
      ((dispatchRecord registry env rec).2 = LoopCtl.next ∧
        (rec.jsonMsgType = "text" →
          (∀ s, rec.jsonContent ≠ OutContent.cstr s) →
          (dispatchRecord registry env rec).1.filter isSendAction = []))) ∧
    (rec.headerOk = false → (dispatchRecord registry env rec).2 = LoopCtl.stop) := by
  constructor
  · intro hHeader hReg
    constructor
    · unfold dispatchRecord decodeOutHeader
      simp only [hHeader, hRaw]
      simp only [Bool.true_eq_false, if_false, reduceCtorEq]
      split
      · simp_all
      · split <;> rfl
    · intro hType hContent
      unfold dispatchRecord decodeOutHeader
      simp only [hHeader, hRaw, hType]
      simp only [Bool.true_eq_false, if_false, reduceCtorEq]
      split
      all_goals try split
      all_goals first
        | (exfalso; exact hContent _ (by assumption))
        | simp_all [isSendAction]
  · intro hHeader
    unfold dispatchRecord decodeOutHeader
    simp [hHeader, hRaw]

/-- C8 witness: the amended theorem applied to a text record whose content
does not decode as a string, on a failing transport send. -/
theorem dispatch_continues_after_record_errors_witness :
    (dispatchRecord ["111"] ⟨true, false⟩
        ⟨true, "Message", 0, "111", "222", "chat1", "m1", "text", "", false,
          OutContent.cOther, "", ""⟩).2 = LoopCtl.next :=
  ((dispatch_continues_after_record_errors ["111"] ⟨true, false⟩
      ⟨true, "Message", 0, "111", "222", "chat1", "m1", "text", "", false,
        OutContent.cOther, "", ""⟩ (by decide)).1 (by decide) (by decide)).1

/-- C10: whenever Connect returns without error, the supervisor IsConnected
flag is true — also on the path that created a brand-new device, and for
every eventual outcome of the asynchronous pairing. -/
theorem connect_success_marks_connected (st : SupervisorState) (env : ConnectEnv)
    (recruiterNumber : String) (devices : List Device)
    (h : (Connect st env recruiterNumber devices).2 = true) :
    (Connect st env recruiterNumber devices).1.isConnected = true := by
  unfold Connect getOrCreateDeviceStore LoginEventHandler at h ⊢
  by_cases hc : st.isConnected = true
  · simpa [hc] using hc
  · cases hd : findMatchingDevice recruiterNumber devices <;>
      cases hg : env.getDeviceOk <;> cases hcl : env.clientOk <;>
        simp_all [hc, hd, hg, hcl]

/-- C10 witness: Connect on a fresh supervisor with no persisted devices
succeeds and leaves IsConnected true, with the pairing outcome still open. -/
theorem connect_success_marks_connected_witness :
    (Connect ⟨false, false, false⟩ ⟨true, true, PairingOutcome.pairTimeout⟩
        "918496952149" []).2 = true ∧
    (Connect ⟨false, false, false⟩ ⟨true, true, PairingOutcome.pairTimeout⟩
        "918496952149" []).1.isConnected = true :=
  ⟨by decide,
    connect_success_marks_connected ⟨false, false, false⟩
      ⟨true, true, PairingOutcome.pairTimeout⟩ "918496952149" [] (by decide)⟩

theorem peerChecks_blocked_of_not_enabled (wcm : WCMFilterState)
    (cfg : RecruiterConfigDB) (v : MsgEvent) (p1 : WhatsAppMessage)
    (hEn : cfg.enabled = false) :
    (peerChecks wcm cfg v p1).2 = true := by
  unfold peerChecks
  dsimp only []
  simp only [hEn]
  split
  all_goals try split
  all_goals try split
  all_goals try split
  all_goals simp_all

/-- C7 (amended): an inbound text Message whose extended-text and
conversation bodies are both empty is marked blocked and dropped silently —
published to no topic — but no EMPTY_MESSAGE code is stamped: the retained
error code is the empty string. -/
theorem empty_text_dropped_silently (wcm : WCMFilterState) (db : DBLookup)
    (pubOk : String → Bool) (freshID : String) (now : Nat) (m : MsgEvent)
    (hType : m.infoType = "text") (hExt : m.extendedText = "")
    (hConv : m.conversation = "") :
    (ReceiveMessage wcm db pubOk freshID now (WAEvent.message m)).emissions = [] ∧
    (ReceiveMessage wcm db pubOk freshID now (WAEvent.message m)).blocked = true ∧
    (ReceiveMessage wcm db pubOk freshID now
      (WAEvent.message m)).payload.errorCode = "" := by
  unfold ReceiveMessage messageStage contentStage
  simp [hType, hExt, hConv]

/-- C7 witness: the amended theorem applied to the concrete empty peer text
event of the boundary scenario. -/
theorem empty_text_dropped_silently_witness :
    (ReceiveMessage
        ⟨⟨"918496952149", "Chrome", "TestClient", ["text", "image"], 10, true⟩,
          "918496952149"⟩
        (DBLookup.row ⟨"918496952149", "918050992006", true, 5⟩)
        (fun _ => true) "m1" 0
        (WAEvent.message
          ⟨"918050992006@s.whatsapp.net", "918050992006", 0, false, "text", "",
            "", "", true, [], "", "", ""⟩)).emissions = [] :=
  (empty_text_dropped_silently
      ⟨⟨"918496952149", "Chrome", "TestClient", ["text", "image"], 10, true⟩,
        "918496952149"⟩
      (DBLookup.row ⟨"918496952149", "918050992006", true, 5⟩)
      (fun _ => true) "m1" 0
      ⟨"918050992006@s.whatsapp.net", "918050992006", 0, false, "text", "",
        "", "", true, [], "", "", ""⟩
      (by decide) (by decide) (by decide)).1

/-- C7 counterexample: at the same concrete input the event is blocked and
dropped, but its retained error code is the empty string, not
EMPTY_MESSAGE as the claim states. -/
theorem empty_text_code_not_stamped :
    (ReceiveMessage
        ⟨⟨"918496952149", "Chrome", "TestClient", ["text", "image"], 10, true⟩,
          "918496952149"⟩
        (DBLookup.row ⟨"918496952149", "918050992006", true, 5⟩)
        (fun _ => true) "m1" 0
        (WAEvent.message
          ⟨"918050992006@s.whatsapp.net", "918050992006", 0, false, "text", "",
            "", "", true, [], "", "", ""⟩)).blocked = true ∧
    (ReceiveMessage
        ⟨⟨"918496952149", "Chrome", "TestClient", ["text", "image"], 10, true⟩,
          "918496952149"⟩
        (DBLookup.row ⟨"918496952149", "918050992006", true, 5⟩)
        (fun _ => true) "m1" 0
        (WAEvent.message
          ⟨"918050992006@s.whatsapp.net", "918050992006", 0, false, "text", "",
            "", "", true, [], "", "", ""⟩)).payload.errorCode ≠
      ErrorCodeEmptyMessage := by
  decide

/-- C2 counterexample: for a concrete peer text under a policy-store driver
error the event is blocked and tagged BLOCKED_SENDER and kept off ingest,
while the same event under the synthesized no-row default policy is
admitted to ingest — so the lookup failure alone does block the event. -/
theorem db_error_blocks_event :
    (ReceiveMessage
        ⟨⟨"918496952149", "Chrome", "TestClient", ["text", "image"], 10, true⟩,
          "918496952149"⟩
        DBLookup.queryError (fun _ => true) "m1" 0
        (WAEvent.message
          ⟨"918050992006@s.whatsapp.net", "918050992006", 0, false, "text", "",
            "hi", "", true, [], "", "", ""⟩)).blocked = true ∧
    (ReceiveMessage
        ⟨⟨"918496952149", "Chrome", "TestClient", ["text", "image"], 10, true⟩,
          "918496952149"⟩
        DBLookup.queryError (fun _ => true) "m1" 0
        (WAEvent.message
          ⟨"918050992006@s.whatsapp.net", "918050992006", 0, false, "text", "",
            "hi", "", true, [], "", "", ""⟩)).payload.errorCode =
      ErrorCodeBlockedSender ∧
    ingestOnly (ReceiveMessage
        ⟨⟨"918496952149", "Chrome", "TestClient", ["text", "image"], 10, true⟩,
          "918496952149"⟩
        DBLookup.queryError (fun _ => true) "m1" 0
        (WAEvent.message
          ⟨"918050992006@s.whatsapp.net", "918050992006", 0, false, "text", "",
            "hi", "", true, [], "", "", ""⟩)).emissions = [] ∧
    (ReceiveMessage
        ⟨⟨"918496952149", "Chrome", "TestClient", ["text", "image"], 10, true⟩,
          "918496952149"⟩
        DBLookup.noRow (fun _ => true) "m1" 0
        (WAEvent.message
          ⟨"918050992006@s.whatsapp.net", "918050992006", 0, false, "text", "",
            "hi", "", true, [], "", "", ""⟩)).blocked = false ∧
    ingestOnly (ReceiveMessage
        ⟨⟨"918496952149", "Chrome", "TestClient", ["text", "image"], 10, true⟩,
          "918496952149"⟩
        DBLookup.noRow (fun _ => true) "m1" 0
        (WAEvent.message
          ⟨"918050992006@s.whatsapp.net", "918050992006", 0, false, "text", "",
            "hi", "", true, [], "", "", ""⟩)).emissions ≠ [] := by
  decide

/-- C2 (amended): when the policy-store query fails with a driver error the
caller logs and proceeds with the zero-value record (enabled false,
message_count 0), so the lookup failure alone blocks the event: it is
blocked and kept off ingest, and when neither the rate-limit check (a
positive limit) nor the group check fires afterwards its retained code is
BLOCKED_SENDER. -/
theorem db_error_zero_config_blocks (wcm : WCMFilterState)
    (pubOk : String → Bool) (freshID : String) (now : Nat) (m : MsgEvent)
    (hPeer : m.senderUser ≠ wcm.storeID)
    (hExtract : contentExtractionOk m = true) :
    (ReceiveMessage wcm DBLookup.queryError pubOk freshID now
      (WAEvent.message m)).blocked = true ∧
    ingestOnly (ReceiveMessage wcm DBLookup.queryError pubOk freshID now
      (WAEvent.message m)).emissions = [] ∧
    (m.isGroup = false → 0 < wcm.recruiterConfig.messageRateLimit →
      (ReceiveMessage wcm DBLookup.queryError pubOk freshID now
        (WAEvent.message m)).payload.errorCode = ErrorCodeBlockedSender) := by
  obtain ⟨p1, he1, hg1, hs1, hr1, hstage⟩ :=
    messageStage_peer_exists wcm DBLookup.queryError pubOk freshID m hPeer hExtract
  unfold ReceiveMessage
  dsimp only []
  rw [hstage]
  dsimp only []
  have hpcb : (peerChecks wcm
      (GetRecruiterConfig wcm.recruiterConfig.recruiterNumber m.senderUser
        DBLookup.queryError).1 m p1).2 = true :=
    peerChecks_blocked_of_not_enabled _ _ _ _ rfl
  rw [hpcb]
  refine ⟨(emitTail_payload pubOk [] _ _ true).2, ?_, ?_⟩
  · exact emitTail_blocked_no_ingest pubOk [] _ _ rfl
  · intro hGroup hLimit
    rw [(emitTail_payload pubOk [] _ _ true).1]
    exact (peerChecks_code_blocked_sender wcm _ m p1 rfl hLimit hGroup).1

/-- C2 witness: the amended theorem applied to the concrete peer text of
the counterexample. -/
theorem db_error_zero_config_blocks_witness :
    (ReceiveMessage
        ⟨⟨"918496952149", "Chrome", "TestClient", ["text", "image"], 10, true⟩,
          "918496952149"⟩
        DBLookup.queryError (fun _ => true) "m1" 0
        (WAEvent.message
          ⟨"918050992006@s.whatsapp.net", "918050992006", 0, false, "text", "",
            "hi", "", true, [], "", "", ""⟩)).blocked = true :=
  (db_error_zero_config_blocks
      ⟨⟨"918496952149", "Chrome", "TestClient", ["text", "image"], 10, true⟩,
        "918496952149"⟩
      (fun _ => true) "m1" 0
      ⟨"918050992006@s.whatsapp.net", "918050992006", 0, false, "text", "",
        "hi", "", true, [], "", "", ""⟩
      (by decide) (by decide)).1

/-- C6: for a peer message passing content extraction with the pair not
enabled, the message count at or above the rate limit, and is_group true —
whatever the allowed-kinds list says — every check fires without
short-circuiting and the retained error code is the last assigned one,
GROUP_MESSAGE; the event is blocked and kept off ingest. -/
theorem blocking_last_code_group_message (wcm : WCMFilterState)
    (cfg : RecruiterConfigDB) (pubOk : String → Bool) (freshID : String)
    (now : Nat) (m : MsgEvent)
    (hPeer : m.senderUser ≠ wcm.storeID) (hExtract : contentExtractionOk m = true)
    (hEn : cfg.enabled = false)
    (hRate : wcm.recruiterConfig.messageRateLimit ≤ cfg.messageCount)
    (hGroup : m.isGroup = true) :
    (ReceiveMessage wcm (DBLookup.row cfg) pubOk freshID now
      (WAEvent.message m)).blocked = true ∧
    ingestOnly (ReceiveMessage wcm (DBLookup.row cfg) pubOk freshID now
      (WAEvent.message m)).emissions = [] ∧
    (ReceiveMessage wcm (DBLookup.row cfg) pubOk freshID now
      (WAEvent.message m)).payload.errorCode = ErrorCodeGroupMessage := by
  obtain ⟨p1, he1, hg1, hs1, hr1, hstage⟩ :=
    messageStage_peer_exists wcm (DBLookup.row cfg) pubOk freshID m hPeer hExtract
  unfold ReceiveMessage
  dsimp only []
  rw [hstage]
  dsimp only []
  have hpcg := peerChecks_code_group wcm cfg m p1 hEn hRate hGroup
  have hcfg : (GetRecruiterConfig wcm.recruiterConfig.recruiterNumber m.senderUser
      (DBLookup.row cfg)).1 = cfg := rfl
  rw [hcfg, hpcg.2]
  refine ⟨(emitTail_payload pubOk [] _ _ true).2, ?_, ?_⟩
  · exact emitTail_blocked_no_ingest pubOk [] _ _ rfl
  · rw [(emitTail_payload pubOk [] _ _ true).1]
    exact hpcg.1

/-- C6 witness: the theorem applied to the sample tenant with a disabled
pair at the rate limit in a group chat. -/
theorem blocking_last_code_group_message_witness :
    (ReceiveMessage
        ⟨⟨"918496952149", "Chrome", "TestClient", ["text", "image"], 10, true⟩,
          "918496952149"⟩
        (DBLookup.row ⟨"918496952149", "918050992006", false, 10⟩)
        (fun _ => true) "m1" 0
        (WAEvent.message
          ⟨"918050992006@g.us", "918050992006", 0, true, "text", "",
            "hi", "", true, [], "", "", ""⟩)).payload.errorCode =
      ErrorCodeGroupMessage :=
  (blocking_last_code_group_message
      ⟨⟨"918496952149", "Chrome", "TestClient", ["text", "image"], 10, true⟩,
        "918496952149"⟩
      ⟨"918496952149", "918050992006", false, 10⟩
      (fun _ => true) "m1" 0
      ⟨"918050992006@g.us", "918050992006", 0, true, "text", "",
        "hi", "", true, [], "", "", ""⟩
      (by decide) (by decide) (by decide) (by decide) (by decide)).2.2

/-- C5: an inbound Message whose sender equals the tenant store id is never
published to ingest; and when additionally the chat equals the qualified
recruiter number, an untagged copy goes to admin first and the raw copy
carries SELF_MESSAGE_ADMIN. -/
theorem self_message_admin_flow (wcm : WCMFilterState) (db : DBLookup)
    (pubOk : String → Bool) (freshID : String) (now : Nat) (m : MsgEvent)
    (hSelf : m.senderUser = wcm.storeID) :
    ingestOnly (ReceiveMessage wcm db pubOk freshID now
      (WAEvent.message m)).emissions = [] ∧
    (m.chat = ConvertToJID wcm.recruiterConfig.recruiterNumber →
      contentExtractionOk m = true → pubOk "admin" = true → pubOk "raw" = true →
      ∃ p1 : WhatsAppMessage, p1.errorCode = "" ∧
        (ReceiveMessage wcm db pubOk freshID now (WAEvent.message m)).emissions =
          [("admin", p1, wcm.storeID ++ "_" ++ m.senderUser),
            ("raw", { p1 with errorCode := InfoCodeAdminMessage },
              wcm.storeID ++ "_" ++ m.senderUser)]) := by
  constructor
  · unfold ReceiveMessage
    dsimp only []
    cases hstage : messageStage wcm db pubOk freshID m with
    | inl r =>
      have h0 := messageStage_inl_emissions _ _ _ _ _ _ hstage
      simp [ingestOnly, h0]
    | inr q =>
      obtain ⟨pre, pp, key, b⟩ := q
      obtain ⟨hk, hps, hpre, hprespec, hb⟩ :=
        messageStage_inr_spec _ _ _ _ _ _ _ _ _ hstage
      dsimp only []
      rw [hb hSelf]
      exact emitTail_blocked_no_ingest pubOk pre pp key hpre
  · intro hChat hExtract hAdmin hRaw
    obtain ⟨p1, he1, hstage⟩ :=
      messageStage_self_admin_exists wcm db pubOk freshID m hSelf hChat hExtract hAdmin
    refine ⟨p1, he1, ?_⟩
    unfold ReceiveMessage
    dsimp only []
    rw [hstage]
    dsimp only []
    simp [emitTail, hRaw]

/-- C5 witness: the self-message scenario with the tenant messaging its own
chat: no ingest emission at the concrete input. -/
theorem self_message_admin_flow_witness :
    ingestOnly (ReceiveMessage
        ⟨⟨"918496952149", "Chrome", "TestClient", ["text", "image"], 10, true⟩,
          "918496952149"⟩
        DBLookup.noRow (fun _ => true) "m1" 0
        (WAEvent.message
          ⟨"918496952149@s.whatsapp.net", "918496952149", 0, false, "text", "",
            "note", "", true, [], "", "", ""⟩)).emissions = [] :=
  (self_message_admin_flow
      ⟨⟨"918496952149", "Chrome", "TestClient", ["text", "image"], 10, true⟩,
        "918496952149"⟩
      DBLookup.noRow (fun _ => true) "m1" 0
      ⟨"918496952149@s.whatsapp.net", "918496952149", 0, false, "text", "",
        "note", "", true, [], "", "", ""⟩
      (by decide)).1

/-- C3: whenever the raw publish succeeds, every normalized Message event
published to ingest is also published, with identical field values and the
same key, to raw. -/
theorem ingest_emission_has_raw_copy (wcm : WCMFilterState) (db : DBLookup)
    (pubOk : String → Bool) (freshID : String) (now : Nat) (m : MsgEvent)
    (hraw : pubOk "raw" = true) (p : WhatsAppMessage) (k : String)
    (hmem : ("ingest", p, k) ∈ (ReceiveMessage wcm db pubOk freshID now
      (WAEvent.message m)).emissions) :
    ("raw", p, k) ∈ (ReceiveMessage wcm db pubOk freshID now
      (WAEvent.message m)).emissions := by
  unfold ReceiveMessage at hmem ⊢
  dsimp only [] at hmem ⊢
  cases hstage : messageStage wcm db pubOk freshID m with
  | inl r =>
    rw [hstage] at hmem
    have h0 := messageStage_inl_emissions _ _ _ _ _ _ hstage
    simp [h0] at hmem
  | inr q =>
    obtain ⟨pre, pp, key, b⟩ := q
    rw [hstage] at hmem
    dsimp only [] at hmem ⊢
    obtain ⟨hk, hps, hpre, hprespec, hb⟩ :=
      messageStage_inr_spec _ _ _ _ _ _ _ _ _ hstage
    exact emitTail_ingest_raw pubOk pre pp key b hpre hraw p k hmem

/-- C3 witness: the happy-path peer text lands on ingest and, by the
theorem, its verbatim copy lands on raw. -/
theorem ingest_emission_has_raw_copy_witness :
    ("raw",
      ⟨"Message", 0, "918050992006", "918496952149",
        "918050992006@s.whatsapp.net", "m1", "text", "", false,
        WAContent.cstr "hi", "", ""⟩,
      "918496952149_918050992006") ∈
      (ReceiveMessage
        ⟨⟨"918496952149", "Chrome", "TestClient", ["text", "image"], 10, true⟩,
          "918496952149"⟩
        (DBLookup.row ⟨"918496952149", "918050992006", true, 5⟩)
        (fun _ => true) "m1" 0
        (WAEvent.message
          ⟨"918050992006@s.whatsapp.net", "918050992006", 0, false, "text", "",
            "hi", "", true, [], "", "", ""⟩)).emissions :=
  ingest_emission_has_raw_copy
    ⟨⟨"918496952149", "Chrome", "TestClient", ["text", "image"], 10, true⟩,
      "918496952149"⟩
    (DBLookup.row ⟨"918496952149", "918050992006", true, 5⟩)
    (fun _ => true) "m1" 0
    ⟨"918050992006@s.whatsapp.net", "918050992006", 0, false, "text", "",
      "hi", "", true, [], "", "", ""⟩
    (by decide)
    ⟨"Message", 0, "918050992006", "918496952149",
      "918050992006@s.whatsapp.net", "m1", "text", "", false,
      WAContent.cstr "hi", "", ""⟩
    "918496952149_918050992006"
    (by decide)

/-- C4 counterexample: in the manual-outreach branch the kafka key is built
before the receiver rewrite, so the emitted raw record carries receiver_id
918050992006 while its key stays 918496952149_918496952149: not every
emission key equals emitted receiver_id ++ "_" ++ sender_id. -/
theorem partition_key_not_rewritten :
    ((ReceiveMessage
        ⟨⟨"918496952149", "Chrome", "TestClient", ["text", "image"], 10, true⟩,
          "918496952149"⟩
        DBLookup.noRow (fun _ => true) "m1" 0
        (WAEvent.message
          ⟨"918050992006@s.whatsapp.net", "918496952149", 0, false, "text", "",
            "hi", "", true, [], "", "", ""⟩)).emissions.all
      fun e => e.2.2 == e.2.1.receiverID ++ "_" ++ e.2.1.senderID) = false := by
  decide

/-- C4 (amended): for every inbound event emission to any topic, the key of
the written record equals the tenant store id concatenated with an
underscore and the emitted event sender_id — the key is computed before
the manual-outreach receiver rewrite, so it does not follow a rewritten
receiver_id. -/
theorem partition_key_store_sender (wcm : WCMFilterState) (db : DBLookup)
    (pubOk : String → Bool) (freshID : String) (now : Nat) (evt : WAEvent)
    (e : Emission)
    (he : e ∈ (ReceiveMessage wcm db pubOk freshID now evt).emissions) :
    e.2.2 = wcm.storeID ++ "_" ++ e.2.1.senderID := by
  cases evt with
  | message m =>
    unfold ReceiveMessage at he
    dsimp only [] at he
    cases hstage : messageStage wcm db pubOk freshID m with
    | inl r =>
      rw [hstage] at he
      have h0 := messageStage_inl_emissions _ _ _ _ _ _ hstage
      simp [h0] at he
    | inr q =>
      obtain ⟨pre, pp, key, b⟩ := q
      rw [hstage] at he
      dsimp only [] at he
      obtain ⟨hk, hps, hpre, hprespec, hb⟩ :=
        messageStage_inr_spec _ _ _ _ _ _ _ _ _ hstage
      rcases emitTail_mem pubOk pre pp key b e he with hin | ⟨h1, h2⟩
      · obtain ⟨hse, hke⟩ := hprespec e hin
        rw [hke, hk, hse]
      · rw [h2, hk, h1, hps]
  | callAccept ts fromUser callID =>
    unfold ReceiveMessage callEvent at he
    dsimp only [] at he
    cases hr : pubOk "raw" <;> simp [hr] at he
    subst he
    simp
  | callOffer ts fromUser callID =>
    unfold ReceiveMessage callEvent at he
    dsimp only [] at he
    cases hr : pubOk "raw" <;> simp [hr] at he
    subst he
    simp
  | callReject ts fromUser callID =>
    unfold ReceiveMessage callEvent at he
    dsimp only [] at he
    cases hr : pubOk "raw" <;> simp [hr] at he
    subst he
    simp
  | loggedOut reasonNumber reasonText =>
    unfold ReceiveMessage at he
    dsimp only [] at he
    cases hf : pubOk "failed" <;> cases hr : pubOk "raw" <;> simp [hf, hr] at he
    · subst he; simp
    · rcases he with he | he <;> subst he <;> simp
  | chatPresence sender chat media state =>
    unfold ReceiveMessage at he
    dsimp only [] at he
    cases hr : pubOk "raw" <;> cases hi : pubOk "ingest" <;> simp [hr, hi] at he
    · subst he; simp
    · rcases he with he | he <;> subst he <;> simp
  | temporaryBan banCode expire =>
    unfold ReceiveMessage at he
    dsimp only [] at he
    cases hr : pubOk "raw" <;> cases hf : pubOk "failed" <;> simp [hr, hf] at he
    · subst he; simp
    · rcases he with he | he <;> subst he <;> simp

/-- C4 witness: the amended key rule at a concrete call event emission. -/
theorem partition_key_store_sender_witness :
    ("918496952149_918050992006" : String) =
      "918496952149" ++ "_" ++
        (⟨"CallAccept", 7, "918050992006", "918496952149", "call1", "m1", "",
          "", false, WAContent.cnone, "", ""⟩ : WhatsAppMessage).senderID :=
  partition_key_store_sender
    ⟨⟨"918496952149", "Chrome", "TestClient", ["text", "image"], 10, true⟩,
      "918496952149"⟩
    DBLookup.noRow (fun _ => true) "m1" 0
    (WAEvent.callAccept 7 "918050992006" "call1")
    ("raw",
      ⟨"CallAccept", 7, "918050992006", "918496952149", "call1", "m1", "",
        "", false, WAContent.cnone, "", ""⟩,
      "918496952149_918050992006")
    (by decide)

end Gateway
